import Mathlib

/-!
# Verification of the Girder assetstore layer specification

The repository's core assetstore code (models/assetstore.py, the adapter
modules, and the upload model) is not present in this source tree; only its
test suite (`tests/cases/assetstore_test.py`) and the worker plugin API
(`plugins/worker/girder_plugin_worker/api/worker.py`) are.  The worker API is
embedded directly from its source.  The assetstore layer is modelled from the
specification, with concrete behaviors (error messages, progress counter
values) pinned by the assertions of the test suite where they appear there.

Bytes are modelled as natural numbers; byte sequences as `List Nat`.  The
sha-512 content digest used by the filesystem adapter to derive storage paths
is modelled as the identity on byte sequences (an injective digest), so a
backend reference is a pair (assetstore id, digest), and the backend itself is
the set of references whose bytes currently exist.
-/

namespace Girder

/-- Error taxonomy of the spec (§7): validation, conflict, state, not-found. -/
inductive GirderError where
  | validationError (msg : String)
  | conflictError (msg : String)
  | stateError (msg : String)
  | notFoundError (msg : String)
deriving DecidableEq, Repr

/-- Byte sequences, bytes as naturals. -/
abbrev Bytes := List Nat

/-- Modelled from the spec: a File's backend reference is derived from the
owning assetstore and the content digest (the digest modelled as the byte
sequence itself). -/
abbrev Ref := Nat × Bytes

/-- Modelled from the spec: the content-addressed backend reference for the
given assetstore id and contents. -/
def refFor (storeId : Nat) (contents : Bytes) : Ref := (storeId, contents)

/-- Modelled from the spec: a backend holds bytes at a set of references. -/
abbrev Backend := List Ref

/-- The bytes stored at a reference (the digest is the content itself). -/
def blobAt (r : Ref) : Bytes := r.2

/-- Modelled from the spec: an Assetstore record — identifier, unique human
name, type tag, and the `current` flag. -/
structure Assetstore where
  id : Nat
  name : String
  storeType : String
  current : Bool
deriving DecidableEq, Repr

/-- Modelled from the spec: a File record — identifier, name, declared size,
owning assetstore id, `imported` flag, and backend reference. -/
structure GFile where
  id : Nat
  name : String
  size : Nat
  assetstoreId : Nat
  imported : Bool
  ref : Ref
deriving DecidableEq, Repr

/-- System state: the configured assetstores, the File records, and the
backend byte store. -/
structure SysState where
  stores : List Assetstore
  files : List GFile
deriving DecidableEq, Repr

/-- Modelled from the spec: transient record of an in-flight chunked upload —
declared size, bytes received so far, and the received data (concatenation of
the accepted chunks). -/
structure UploadSession where
  declaredSize : Nat
  received : Nat
  data : Bytes
deriving DecidableEq, Repr

/-- Modelled from the spec: Initiate(declaredSize) enters `Receiving` with
zero bytes received. -/
def initUpload (size : Nat) : UploadSession :=
  { declaredSize := size, received := 0, data := [] }

/-- Modelled from the spec: WriteChunk(session, offset, chunk) fails with
`StateError` when `offset ≠ session.received`; otherwise it appends the chunk
and advances `received`. -/
def writeChunk (s : UploadSession) (offset : Nat) (chunk : Bytes) :
    Except GirderError UploadSession :=
  if offset ≠ s.received then
    .error (.stateError "Server has received wrong chunk offset.")
  else
    .ok { s with received := s.received + chunk.length, data := s.data ++ chunk }

/-- Write a list of chunks in offset order: each chunk is written at the
offset equal to the bytes received so far. -/
def writeChunks (s : UploadSession) : List Bytes → Except GirderError UploadSession
  | [] => .ok s
  | c :: cs => (writeChunk s s.received c).bind (fun s2 => writeChunks s2 cs)

/-- Modelled from the spec: Finalize(session) is valid only when
`received = declaredSize`; it stores the received bytes in the backend and
creates the File record bound to the backend reference. -/
def finalizeUpload (s : UploadSession) (storeId fileId : Nat) (name : String)
    (bk : Backend) : Except GirderError (GFile × Backend) :=
  if s.received ≠ s.declaredSize then
    .error (.stateError "Finalize called before upload was fully received.")
  else
    let r := refFor storeId s.data
    .ok ({ id := fileId, name := name, size := s.declaredSize,
           assetstoreId := storeId, imported := false, ref := r }, r :: bk)

/-- Modelled from the spec: openForRead resolves the File's backend reference;
it yields the stored bytes when the reference exists and nothing otherwise. -/
def readBytes (bk : Backend) (f : GFile) : Option Bytes :=
  if f.ref ∈ bk then some (blobAt f.ref) else none

theorem writeChunks_ok (cs : List Bytes) :
    ∀ s : UploadSession, writeChunks s cs =
      .ok { s with received := s.received + cs.flatten.length,
                   data := s.data ++ cs.flatten } := by
  induction cs with
  | nil => intro s; simp [writeChunks]
  | cons c cs ih =>
      intro s
      have h1 : writeChunk s s.received c =
          .ok { s with received := s.received + c.length, data := s.data ++ c } := by
        simp [writeChunk]
      simp only [writeChunks, h1, Except.bind, ih]
      congr 1
      simp only [List.flatten_cons, List.length_append, List.append_assoc]
      congr 1
      omega

/-- C2: initiating an upload of the declared total size, writing the chunks in
offset order, and finalizing produces a File whose read returns exactly the
original byte sequence, with the File's size equal to the declared size. -/
theorem c2_upload_roundtrip (bytes : Bytes) (chunks : List Bytes)
    (storeId fileId : Nat) (name : String) (bk : Backend)
    (hsplit : chunks.flatten = bytes) :
    ∃ s : UploadSession, writeChunks (initUpload bytes.length) chunks = .ok s ∧
      ∃ f : GFile, ∃ bk2 : Backend,
        finalizeUpload s storeId fileId name bk = .ok (f, bk2) ∧
        readBytes bk2 f = some bytes ∧ f.size = bytes.length := by
  refine ⟨{ declaredSize := bytes.length, received := bytes.length, data := bytes }, ?_, ?_⟩
  · rw [writeChunks_ok]
    simp [initUpload, hsplit]
  · refine ⟨{ id := fileId, name := name, size := bytes.length, assetstoreId := storeId,
              imported := false, ref := refFor storeId bytes },
            refFor storeId bytes :: bk, ?_, ?_, rfl⟩
    · simp [finalizeUpload]
    · simp [readBytes, refFor, blobAt]

/-- Witness for C2 at a concrete split: bytes [1,2,3] uploaded as chunks
[1] then [2,3]. -/
theorem c2_upload_roundtrip_witness :
    ∃ s : UploadSession, writeChunks (initUpload [1, 2, 3].length) [[1], [2, 3]] = .ok s ∧
      ∃ f : GFile, ∃ bk2 : Backend,
        finalizeUpload s 7 42 "sample1" [] = .ok (f, bk2) ∧
        readBytes bk2 f = some [1, 2, 3] ∧ f.size = [1, 2, 3].length :=
  c2_upload_roundtrip [1, 2, 3] [[1], [2, 3]] 7 42 "sample1" [] (by decide)

/-- Number of assetstores whose `current` flag is set. -/
def countCurrent (reg : List Assetstore) : Nat :=
  (reg.filter (fun s => s.current)).length

/-- Modelled from the spec: `setCurrent(store)` sets the target's flag true
and unsets every other Assetstore's flag (the net effect of the fenced
two-step update of §4.6). -/
def setCurrent (reg : List Assetstore) (targetId : Nat) : List Assetstore :=
  reg.map (fun s => { s with current := s.id == targetId })

/-- Modelled from the spec: after deleting the current assetstore, the first
remaining assetstore is promoted to current. -/
def promoteFirst : List Assetstore → List Assetstore
  | [] => []
  | s :: rest => { s with current := true } :: rest

/-- Modelled from the spec: `delete(store)` fails with `ConflictError` if any
File references it (the message is the one asserted by the test suite), and
otherwise removes the store, promoting another one when the deleted store was
current.  The decision consults only metadata, so the backend-availability
argument is never examined. -/
def deleteAssetstore (st : SysState) (targetId : Nat) (_backendUp : Bool) :
    Except GirderError SysState :=
  if st.files.any (fun f => f.assetstoreId == targetId) then
    .error (.conflictError "You may not delete an assetstore that contains files.")
  else
    let remaining := st.stores.filter (fun s => !(s.id == targetId))
    let wasCurrent := st.stores.any (fun s => s.id == targetId && s.current)
    .ok { st with stores := if wasCurrent then promoteFirst remaining else remaining }

theorem countCurrent_setCurrent (reg : List Assetstore) (t : Nat) :
    countCurrent (setCurrent reg t) = (reg.filter (fun s => s.id == t)).length := by
  induction reg with
  | nil => rfl
  | cons s rest ih =>
      simp only [countCurrent, setCurrent, List.map_cons, List.filter_cons] at *
      by_cases h : s.id = t
      · simp [h, ih]
      · simp [h, ih]

theorem length_filter_id_eq (reg : List Assetstore) (t : Nat)
    (hnodup : (reg.map Assetstore.id).Nodup) (hmem : t ∈ reg.map Assetstore.id) :
    (reg.filter (fun s => s.id == t)).length = 1 := by
  induction reg with
  | nil => simp at hmem
  | cons s rest ih =>
      simp only [List.map_cons, List.nodup_cons, List.mem_cons] at hnodup hmem
      by_cases h : s.id = t
      · have hrest : rest.filter (fun x => x.id == t) = [] := by
          rw [List.filter_eq_nil_iff]
          intro x hx hxt
          exact hnodup.1 (h ▸ (beq_iff_eq.mp hxt) ▸ List.mem_map_of_mem Assetstore.id hx)
        simp [List.filter_cons, h, hrest]
      · have hmem2 : t ∈ rest.map Assetstore.id := by
          rcases hmem with h1 | h2
          · exact absurd h1.symm h
          · exact h2
        simp [List.filter_cons, h, ih hnodup.2 hmem2]

theorem setCurrent_flag (reg : List Assetstore) (t : Nat) :
    ∀ s ∈ setCurrent reg t, (s.current = true ↔ s.id = t) := by
  intro s hs
  simp only [setCurrent, List.mem_map] at hs
  obtain ⟨s0, _, rfl⟩ := hs
  simp

theorem filter_current_eq_single (reg : List Assetstore)
    (hone : countCurrent reg = 1) :
    ∃ c, reg.filter (fun s => s.current) = [c] ∧ c.current = true := by
  obtain ⟨c, hc⟩ := List.length_eq_one.mp hone
  refine ⟨c, hc, ?_⟩
  have : c ∈ reg.filter (fun s => s.current) := by simp [hc]
  exact (List.mem_filter.mp this).2

theorem delete_preserves_one (st : SysState) (t : Nat) (b : Bool)
    (hone : countCurrent st.stores = 1)
    (st2 : SysState) (hok : deleteAssetstore st t b = .ok st2)
    (hne : st2.stores ≠ []) :
    countCurrent st2.stores = 1 := by
  obtain ⟨c, hc, hcur⟩ := filter_current_eq_single st.stores hone
  by_cases hfiles : st.files.any (fun f => f.assetstoreId == t) = true
  · simp [deleteAssetstore, hfiles] at hok
  · simp only [deleteAssetstore, if_neg hfiles, Except.ok.injEq] at hok
    have hstores : st2.stores =
        (if st.stores.any (fun s => s.id == t && s.current) = true then
          promoteFirst (st.stores.filter (fun s => !(s.id == t)))
        else st.stores.filter (fun s => !(s.id == t))) := by
      rw [← hok]
    have hcomm : (st.stores.filter (fun s => !(s.id == t))).filter (fun s => s.current) =
        (st.stores.filter (fun s => s.current)).filter (fun s => !(s.id == t)) := by
      rw [List.filter_filter, List.filter_filter]
      congr 1
      funext a
      exact Bool.and_comm _ _
    by_cases hwas : st.stores.any (fun s => s.id == t && s.current) = true
    · -- the deleted store was the unique current one
      obtain ⟨s, hsmem, hsprop⟩ := List.any_eq_true.mp hwas
      rw [Bool.and_eq_true, beq_iff_eq] at hsprop
      have hsc : s ∈ st.stores.filter (fun x => x.current) :=
        List.mem_filter.mpr ⟨hsmem, hsprop.2⟩
      rw [hc, List.mem_singleton] at hsc
      subst hsc
      have hzero : countCurrent (st.stores.filter (fun x => !(x.id == t))) = 0 := by
        unfold countCurrent
        rw [hcomm, hc]
        simp [hsprop.1]
      rw [hstores, if_pos hwas] at hne ⊢
      rcases hrem : st.stores.filter (fun x => !(x.id == t)) with _ | ⟨r, rest⟩
      · rw [hrem] at hne; simp [promoteFirst] at hne
      · rw [hrem] at hzero ⊢
        unfold countCurrent at hzero ⊢
        rw [List.filter_cons] at hzero
        have hrest0 : (rest.filter (fun s => s.current)).length = 0 := by
          rcases hr : r.current with _ | _
          · simpa [hr] using hzero
          · rw [hr] at hzero; simp at hzero
        simp [promoteFirst, List.filter_cons, hrest0]
    · -- the unique current store survives the filter
      have hcnot : (c.id == t) = false := by
        rcases hct : (c.id == t) with _ | _
        · rfl
        · exact absurd (List.any_eq_true.mpr
            ⟨c, (List.mem_filter.mp (hc ▸ List.mem_singleton_self c)).1,
              by simp [hct, hcur]⟩) hwas
      have hcnot2 : c ∈ st.stores.filter (fun s => s.current) := by
        simp [hc]
      rw [hstores, if_neg hwas]
      unfold countCurrent
      rw [hcomm, hc]
      simp [hcnot]

/-- C1: for every non-empty set of configured Assetstores with distinct ids,
exactly one Assetstore has `current = true` at every observation point:
`setCurrent` makes the target store current and unsets every other store's
flag, and deleting an Assetstore preserves the exactly-one-current invariant
(deleting the current one promotes another store to current). -/
theorem c1_exactly_one_current (st : SysState) (targetId : Nat)
    (hnodup : (st.stores.map Assetstore.id).Nodup)
    (hone : countCurrent st.stores = 1) :
    (targetId ∈ st.stores.map Assetstore.id →
        countCurrent (setCurrent st.stores targetId) = 1 ∧
        ∀ s ∈ setCurrent st.stores targetId, (s.current = true ↔ s.id = targetId)) ∧
    (∀ b : Bool, ∀ st2 : SysState, deleteAssetstore st targetId b = .ok st2 →
        st2.stores ≠ [] → countCurrent st2.stores = 1) := by
  constructor
  · intro hmem
    exact ⟨(countCurrent_setCurrent st.stores targetId).trans
        (length_filter_id_eq st.stores targetId hnodup hmem),
      setCurrent_flag st.stores targetId⟩
  · intro b st2 hok hne
    exact delete_preserves_one st targetId b hone st2 hok hne

/-- Witness for C1: a registry of two stores (ids 1 and 2, store 1 current);
setting store 2 current keeps exactly one current, and deleting store 2
leaves exactly one current. -/
theorem c1_exactly_one_current_witness :
    countCurrent (setCurrent
      [⟨1, "Test", "filesystem", true⟩, ⟨2, "New Name", "filesystem", false⟩] 2) = 1 ∧
    countCurrent (SysState.stores
      { stores := [⟨1, "Test", "filesystem", true⟩], files := [] }) = 1 :=
  ⟨((c1_exactly_one_current
      ⟨[⟨1, "Test", "filesystem", true⟩, ⟨2, "New Name", "filesystem", false⟩], []⟩ 2
      (by decide) (by decide)).1 (by decide)).1,
   (c1_exactly_one_current
      ⟨[⟨1, "Test", "filesystem", true⟩, ⟨2, "New Name", "filesystem", false⟩], []⟩ 2
      (by decide) (by decide)).2 true
      { stores := [⟨1, "Test", "filesystem", true⟩], files := [] }
      (by rfl) (by decide)⟩

theorem promoteFirst_ids (l : List Assetstore) :
    (promoteFirst l).map Assetstore.id = l.map Assetstore.id := by
  cases l <;> simp [promoteFirst]

/-- C4: for every Assetstore referenced by at least one File, delete fails
with ConflictError, independently of backend connectivity (the result never
depends on the backend-availability argument, and the error branch returns no
new state, leaving the store in place); deleting an Assetstore containing
zero Files succeeds, removes it, and if it was current promotes another store
to current. -/
theorem c4_delete_assetstore (st : SysState) (t : Nat) (b b2 : Bool) :
    deleteAssetstore st t b = deleteAssetstore st t b2 ∧
    ((st.files.any (fun f => f.assetstoreId == t)) = true →
      deleteAssetstore st t b =
        .error (.conflictError "You may not delete an assetstore that contains files.")) ∧
    ((st.files.any (fun f => f.assetstoreId == t)) = false →
      ∃ st2 : SysState, deleteAssetstore st t b = .ok st2 ∧
        (∀ s ∈ st2.stores, s.id ≠ t) ∧
        ((st.stores.any (fun s => s.id == t && s.current)) = true →
          st2.stores ≠ [] → ∃ s ∈ st2.stores, s.current = true)) := by
  refine ⟨rfl, ?_, ?_⟩
  · intro h
    simp [deleteAssetstore, h]
  · intro h
    have hneg : ¬ ((st.files.any (fun f => f.assetstoreId == t)) = true) := by simp [h]
    refine ⟨{ st with stores :=
        if (st.stores.any (fun s => s.id == t && s.current)) = true then
          promoteFirst (st.stores.filter (fun s => !(s.id == t)))
        else st.stores.filter (fun s => !(s.id == t)) }, ?_, ?_, ?_⟩
    · simp only [deleteAssetstore, if_neg hneg]
    · intro s hs
      simp only at hs
      have hid : s.id ∈ (st.stores.filter (fun x => !(x.id == t))).map Assetstore.id := by
        by_cases hwas : (st.stores.any (fun x => x.id == t && x.current)) = true
        · rw [if_pos hwas] at hs
          rw [← promoteFirst_ids]
          exact List.mem_map_of_mem Assetstore.id hs
        · rw [if_neg hwas] at hs
          exact List.mem_map_of_mem Assetstore.id hs
      obtain ⟨x, hx, hxid⟩ := List.mem_map.mp hid
      have := (List.mem_filter.mp hx).2
      simp only [Bool.not_eq_eq_eq_not, Bool.not_true, beq_eq_false_iff_ne, ne_eq] at this
      rw [← hxid]
      exact this
    · intro hwas hne
      simp only at hne ⊢
      rw [if_pos hwas] at hne ⊢
      rcases hrm : st.stores.filter (fun x => !(x.id == t)) with _ | ⟨r, rest⟩
      · rw [hrm] at hne
        simp [promoteFirst] at hne
      · rw [hrm]
        exact ⟨{ r with current := true }, by simp [promoteFirst], rfl⟩

/-- A state with one store that a File references (as in testDeleteAssetstore
before the file is removed). -/
def occupiedState : SysState :=
  { stores := [⟨1, "Test", "filesystem", true⟩],
    files := [⟨10, "x.txt", 1, 1, false, (1, [7])⟩] }

/-- A state with two stores (store 1 current) and no Files. -/
def twoStoreState : SysState :=
  { stores := [⟨1, "Test", "filesystem", true⟩,
               ⟨2, "Another Store", "filesystem", false⟩],
    files := [] }

/-- Witness for C4: deleting store 1 while a File references it yields
ConflictError; deleting current store 1 with no Files succeeds and another
store becomes current. -/
theorem c4_delete_assetstore_witness :
    deleteAssetstore occupiedState 1 true =
      .error (.conflictError "You may not delete an assetstore that contains files.") ∧
    (∃ st2 : SysState,
      deleteAssetstore twoStoreState 1 true = .ok st2 ∧
      (∀ s ∈ st2.stores, s.id ≠ 1) ∧
      ((twoStoreState.stores.any (fun s => s.id == 1 && s.current)) = true →
        st2.stores ≠ [] → ∃ s ∈ st2.stores, s.current = true)) :=
  ⟨(c4_delete_assetstore occupiedState 1 true true).2.1 (by decide),
   (c4_delete_assetstore twoStoreState 1 true true).2.2 (by decide)⟩

/-- A backend-bearing state: the File records of one deployment together with
the byte store. -/
structure StoreState where
  files : List GFile
  backend : Backend
deriving DecidableEq, Repr

/-- Modelled from the spec: deleting a File removes its metadata record, and
initiates deletion of the backing bytes only when the File is not imported
(the returned flag records whether byte deletion was initiated, mirroring the
event the test suite observes). -/
def deleteFile (st : StoreState) (f : GFile) : StoreState × Bool :=
  ({ files := st.files.filter (fun g => !(g.id == f.id)),
     backend := if f.imported then st.backend
                else st.backend.filter (fun r => !(r == f.ref)) },
   !f.imported)

/-- C3: deleting an imported File removes only the metadata record — the
backend is untouched and no byte-deletion is even initiated; deleting a
non-imported File initiates byte deletion and the backing bytes no longer
resolve afterwards. -/
theorem c3_delete_imported_frame (st : StoreState) (f : GFile) :
    (f ∉ (deleteFile st f).1.files) ∧
    (f.imported = true →
      (deleteFile st f).1.backend = st.backend ∧ (deleteFile st f).2 = false) ∧
    (f.imported = false →
      (deleteFile st f).2 = true ∧ readBytes (deleteFile st f).1.backend f = none) := by
  refine ⟨?_, ?_, ?_⟩
  · intro hf
    have := (List.mem_filter.mp hf).2
    simp at this
  · intro h
    simp [deleteFile, h]
  · intro h
    refine ⟨by simp [deleteFile, h], ?_⟩
    have hnot : f.ref ∉ (deleteFile st f).1.backend := by
      intro hr
      simp only [deleteFile, h, Bool.false_eq_true, if_false] at hr
      have := (List.mem_filter.mp hr).2
      simp at this
    simp [readBytes, hnot]

/-- Witness for C3: an imported File's delete leaves the backend intact and
initiates nothing; a non-imported File's delete initiates byte deletion and
the bytes are gone. -/
theorem c3_delete_imported_frame_witness :
    (deleteFile ⟨[⟨10, "test", 0, 5, true, (5, [])⟩], [(5, [])]⟩
        ⟨10, "test", 0, 5, true, (5, [])⟩).1.backend = [(5, [])] ∧
    readBytes (deleteFile ⟨[⟨11, "x.txt", 1, 5, false, (5, [120])⟩], [(5, [120])]⟩
        ⟨11, "x.txt", 1, 5, false, (5, [120])⟩).1.backend
      ⟨11, "x.txt", 1, 5, false, (5, [120])⟩ = none :=
  ⟨((c3_delete_imported_frame ⟨[⟨10, "test", 0, 5, true, (5, [])⟩], [(5, [])]⟩
      ⟨10, "test", 0, 5, true, (5, [])⟩).2.1 (by decide)).1,
   ((c3_delete_imported_frame ⟨[⟨11, "x.txt", 1, 5, false, (5, [120])⟩], [(5, [120])]⟩
      ⟨11, "x.txt", 1, 5, false, (5, [120])⟩).2.2 (by decide)).2⟩

/-- Modelled from the spec: move(file, destinationAssetstore) — a no-op when
the File already lives in the destination; otherwise the bytes are copied to
the destination's content-addressed reference, the File record's
assetstoreId and backend reference are updated, and the source bytes are
deleted unless the File is imported.  The pre-move veto hook is modelled as
allowing the move. -/
def moveFile (st : StoreState) (f : GFile) (dest : Nat) : StoreState × GFile :=
  if f.assetstoreId == dest then (st, f)
  else
    let newRef := refFor dest (blobAt f.ref)
    let f2 := { f with assetstoreId := dest, ref := newRef }
    let bk := newRef :: st.backend
    ({ files := st.files.map (fun g => if g.id == f.id then f2 else g),
       backend := if f.imported then bk else bk.filter (fun r => !(r == f.ref)) },
     f2)

/-- C7: moving a File to its own Assetstore returns state and File unchanged
(idempotent no-op), and moving to a different Assetstore and then back
restores the original assetstoreId and backend reference. -/
theorem c7_move_noop_and_roundtrip (st : StoreState) (f : GFile) (a : Nat)
    (hwf : f.ref = refFor f.assetstoreId (blobAt f.ref)) :
    moveFile st f f.assetstoreId = (st, f) ∧
    (moveFile (moveFile st f a).1 (moveFile st f a).2 f.assetstoreId).2.assetstoreId
        = f.assetstoreId ∧
    (moveFile (moveFile st f a).1 (moveFile st f a).2 f.assetstoreId).2.ref = f.ref := by
  refine ⟨by simp [moveFile], ?_⟩
  by_cases h : f.assetstoreId = a
  · simp [moveFile, h]
  · have h1 : (f.assetstoreId == a) = false := by simp [h]
    have h2 : (a == f.assetstoreId) = false := by simp [Ne.symm h]
    constructor
    · simp [moveFile, h1, h2]
    · simp only [moveFile, h1, Bool.false_eq_true, if_false, h2]
      exact hwf.symm

/-- Witness for C7 at a concrete File (id 10, store 5, contents [104, 105])
moved to store 9 and back. -/
theorem c7_move_noop_and_roundtrip_witness :
    moveFile ⟨[⟨10, "sample1", 2, 5, false, (5, [104, 105])⟩], [(5, [104, 105])]⟩
        ⟨10, "sample1", 2, 5, false, (5, [104, 105])⟩ 5 =
      (⟨[⟨10, "sample1", 2, 5, false, (5, [104, 105])⟩], [(5, [104, 105])]⟩,
       ⟨10, "sample1", 2, 5, false, (5, [104, 105])⟩) ∧
    (moveFile
      (moveFile ⟨[⟨10, "sample1", 2, 5, false, (5, [104, 105])⟩], [(5, [104, 105])]⟩
        ⟨10, "sample1", 2, 5, false, (5, [104, 105])⟩ 9).1
      (moveFile ⟨[⟨10, "sample1", 2, 5, false, (5, [104, 105])⟩], [(5, [104, 105])]⟩
        ⟨10, "sample1", 2, 5, false, (5, [104, 105])⟩ 9).2 5).2.assetstoreId = 5 ∧
    (moveFile
      (moveFile ⟨[⟨10, "sample1", 2, 5, false, (5, [104, 105])⟩], [(5, [104, 105])]⟩
        ⟨10, "sample1", 2, 5, false, (5, [104, 105])⟩ 9).1
      (moveFile ⟨[⟨10, "sample1", 2, 5, false, (5, [104, 105])⟩], [(5, [104, 105])]⟩
        ⟨10, "sample1", 2, 5, false, (5, [104, 105])⟩ 9).2 5).2.ref = (5, [104, 105]) :=
  c7_move_noop_and_roundtrip
    ⟨[⟨10, "sample1", 2, 5, false, (5, [104, 105])⟩], [(5, [104, 105])]⟩
    ⟨10, "sample1", 2, 5, false, (5, [104, 105])⟩ 9 (by decide)

/-- A request descriptor for direct-to-object-store operations: method, url
and headers. -/
structure RequestDescriptor where
  method : String
  url : String
  headers : List (String × String)
deriving DecidableEq, Repr

/-- Modelled from the spec: the object-store upload bookkeeping — whether the
session is chunked (multipart) and the request descriptor the client must
issue. -/
structure S3UploadInfo where
  chunked : Bool
  chunkLength : Nat
  request : RequestDescriptor
deriving DecidableEq, Repr

/-- Modelled from the spec and the test suite: the resumable offset query on
an object-store upload session; on a chunked multipart session it fails with
a ValidationError whose message is the one asserted by the test suite, and on
a non-chunked session it returns the request descriptor for resuming. -/
def requestOffset (info : S3UploadInfo) : Except GirderError RequestDescriptor :=
  if info.chunked then
    .error (.validationError
      "You should not call requestOffset on a chunked direct-to-S3 upload.")
  else
    .ok info.request

/-- C5 counterexample: on a concrete chunked multipart session, the offset
query does not produce the ValidationError message stated by the claim
("direct-to-object"); the code's message says "direct-to-S3". -/
theorem c5_message_counterexample :
    requestOffset ⟨true, 32, ⟨"POST", "https://s3.amazonaws.com/bucketname/foo/bar", []⟩⟩ ≠
      .error (.validationError
        "You should not call requestOffset on a chunked direct-to-object upload") := by
  intro h
  simp [requestOffset] at h

/-- C5 (amended): on a chunked multipart object-store session the offset
query fails with ValidationError "You should not call requestOffset on a
chunked direct-to-S3 upload."; on a non-chunked session it is legal and
returns the request descriptor {method, url, headers}. -/
theorem c5_request_offset (info : S3UploadInfo) :
    (info.chunked = true →
      requestOffset info = .error (.validationError
        "You should not call requestOffset on a chunked direct-to-S3 upload.")) ∧
    (info.chunked = false → requestOffset info = .ok info.request) := by
  constructor <;> intro h <;> simp [requestOffset, h]

/-- Witness for C5 at two concrete sessions, one chunked and one not. -/
theorem c5_request_offset_witness :
    requestOffset ⟨true, 32, ⟨"POST", "https://s3.amazonaws.com/bucketname/foo/bar", []⟩⟩ =
      .error (.validationError
        "You should not call requestOffset on a chunked direct-to-S3 upload.") ∧
    requestOffset ⟨false, 32, ⟨"PUT", "https://s3.amazonaws.com/bucketname/foo/bar", []⟩⟩ =
      .ok ⟨"PUT", "https://s3.amazonaws.com/bucketname/foo/bar", []⟩ :=
  ⟨(c5_request_offset
      ⟨true, 32, ⟨"POST", "https://s3.amazonaws.com/bucketname/foo/bar", []⟩⟩).1 rfl,
   (c5_request_offset
      ⟨false, 32, ⟨"PUT", "https://s3.amazonaws.com/bucketname/foo/bar", []⟩⟩).2 rfl⟩

/-- Modelled from the spec: the import name filter — an entry is imported iff
it matches includeRegex and does not match excludeRegex; regexes are
modelled as predicates on names. -/
def importNameFilter (incl excl : String → Bool) (name : String) : Bool :=
  incl name && !(excl name)

/-- Modelled from the spec: the default includeRegex matches every name. -/
def matchAll : String → Bool := fun _ => true

/-- Modelled from the spec: the default excludeRegex matches no name. -/
def matchNone : String → Bool := fun _ => false

/-- Modelled from the spec: the entries an import operation creates metadata
for, out of the enumerated namespace entries. -/
def importEntries (entries : List String) (incl excl : String → Bool) : List String :=
  entries.filter (importNameFilter incl excl)

/-- C6: an entry is imported iff it matches the include filter and does not
match the exclude filter; a name matching both is excluded, and a re-run
with the default (broadest) filters imports any previously excluded entry. -/
theorem c6_import_filter (entries : List String) (incl excl : String → Bool)
    (name : String) (hmem : name ∈ entries) :
    (name ∈ importEntries entries incl excl ↔
      (incl name = true ∧ excl name = false)) ∧
    (incl name = true → excl name = true →
      name ∉ importEntries entries incl excl) ∧
    (name ∉ importEntries entries incl excl →
      name ∈ importEntries entries matchAll matchNone) := by
  refine ⟨?_, ?_, ?_⟩
  · constructor
    · intro h
      have h2 := (List.mem_filter.mp h).2
      simp only [importNameFilter, Bool.and_eq_true, Bool.not_eq_eq_eq_not,
        Bool.not_true] at h2
      exact h2
    · rintro ⟨h1, h2⟩
      exact List.mem_filter.mpr ⟨hmem, by simp [importNameFilter, h1, h2]⟩
  · intro h1 h2 hin
    have h3 := (List.mem_filter.mp hin).2
    simp [importNameFilter, h2] at h3
  · intro _
    exact List.mem_filter.mpr ⟨hmem, by simp [importNameFilter, matchAll, matchNone]⟩

/-- Witness for C6 mirroring the test: with include and exclude both matching
"world.txt" the entry is excluded, and the later un-filtered re-run imports
it. -/
theorem c6_import_filter_witness :
    "world.txt" ∉ importEntries ["world.txt", "hello.txt"]
      (fun n => n == "world.txt") (fun n => n == "world.txt") ∧
    "world.txt" ∈ importEntries ["world.txt", "hello.txt"] matchAll matchNone :=
  ⟨(c6_import_filter ["world.txt", "hello.txt"]
      (fun n => n == "world.txt") (fun n => n == "world.txt")
      "world.txt" (by decide)).2.1 (by decide) (by decide),
   (c6_import_filter ["world.txt", "hello.txt"]
      (fun n => n == "world.txt") (fun n => n == "world.txt")
      "world.txt" (by decide)).2.2
     ((c6_import_filter ["world.txt", "hello.txt"]
        (fun n => n == "world.txt") (fun n => n == "world.txt")
        "world.txt" (by decide)).2.1 (by decide) (by decide))⟩

/-- Progress counters reported through the progress interface. -/
structure Progress where
  current : Nat
  total : Nat
deriving DecidableEq, Repr

/-- A File's backend reference resolves when the backend holds bytes at it. -/
def resolves (bk : Backend) (f : GFile) : Bool := bk.contains f.ref

/-- Modelled from the spec: the scanning loop of findInvalidFiles — it walks
the candidate Files, incrementing the progress counter once per candidate,
and yields a (file, "missing") pair for each candidate whose backend
reference does not resolve. -/
def scanFiles (bk : Backend) (prog : Progress) :
    List GFile → List (GFile × String) × Progress
  | [] => ([], prog)
  | f :: fs =>
      let rest := scanFiles bk { prog with current := prog.current + 1 } fs
      (if resolves bk f then rest.1 else (f, "missing") :: rest.1, rest.2)

/-- Modelled from the spec: findInvalidFiles(assetstore, filters) — scans the
point-in-time candidate set (the Files of the assetstore narrowed by the
filter), yields one (file, "missing") pair per unresolvable candidate,
deletes and repairs nothing (the state is returned unchanged), and reports
progress starting at (0, number of candidates). -/
def findInvalidFiles (st : StoreState) (storeId : Nat) (filt : GFile → Bool) :
    List (GFile × String) × Progress × StoreState :=
  let candidates := st.files.filter (fun f => f.assetstoreId == storeId && filt f)
  let scanned := scanFiles st.backend ⟨0, candidates.length⟩ candidates
  (scanned.1, scanned.2, st)

theorem scanFiles_spec (bk : Backend) : ∀ (fs : List GFile) (prog : Progress),
    scanFiles bk prog fs =
      ((fs.filter (fun f => !(resolves bk f))).map (fun f => (f, "missing")),
       ⟨prog.current + fs.length, prog.total⟩) := by
  intro fs
  induction fs with
  | nil => intro prog; simp [scanFiles]
  | cons f fs ih =>
      intro prog
      simp only [scanFiles, ih, List.filter_cons]
      rcases h : resolves bk f with _ | _
      · simp only [h, Bool.not_false, if_true, Bool.false_eq_true, if_false,
          List.map_cons, List.length_cons, Prod.mk.injEq]
        exact ⟨trivial, by congr 1; omega⟩
      · simp only [h, Bool.not_true, Bool.false_eq_true, if_false, if_true,
          List.length_cons, Prod.mk.injEq]
        exact ⟨trivial, by congr 1; omega⟩

/-- C8: findInvalidFiles yields exactly one (file, "missing") pair per
candidate File whose backend reference does not resolve and nothing else,
deletes and repairs nothing (the state comes back unchanged), and its
progress counters end at current = total = number of candidates scanned. -/
theorem c8_find_invalid_files (st : StoreState) (storeId : Nat)
    (filt : GFile → Bool) (hnodup : st.files.Nodup) :
    (∀ (f : GFile) (r : String), (f, r) ∈ (findInvalidFiles st storeId filt).1 ↔
      (f ∈ st.files ∧ f.assetstoreId = storeId ∧ filt f = true ∧
        resolves st.backend f = false ∧ r = "missing")) ∧
    (findInvalidFiles st storeId filt).1.Nodup ∧
    (findInvalidFiles st storeId filt).2.1.current =
      (st.files.filter (fun f => f.assetstoreId == storeId && filt f)).length ∧
    (findInvalidFiles st storeId filt).2.1.total =
      (st.files.filter (fun f => f.assetstoreId == storeId && filt f)).length ∧
    (findInvalidFiles st storeId filt).2.2 = st := by
  have hres : findInvalidFiles st storeId filt =
      ((((st.files.filter (fun f => f.assetstoreId == storeId && filt f)).filter
          (fun f => !(resolves st.backend f))).map (fun f => (f, "missing"))),
       ⟨(st.files.filter (fun f => f.assetstoreId == storeId && filt f)).length,
        (st.files.filter (fun f => f.assetstoreId == storeId && filt f)).length⟩,
       st) := by
    simp [findInvalidFiles, scanFiles_spec]
  rw [hres]
  refine ⟨?_, ?_, rfl, rfl, rfl⟩
  · intro f r
    constructor
    · intro h
      obtain ⟨x, hx, hxe⟩ := List.mem_map.mp h
      obtain ⟨rfl, rfl⟩ := Prod.mk.injEq .. ▸ hxe
      have h1 := List.mem_filter.mp hx
      have h2 := List.mem_filter.mp h1.1
      refine ⟨h2.1, ?_, ?_, ?_, rfl⟩
      · have := h2.2
        simp only [Bool.and_eq_true, beq_iff_eq] at this
        exact this.1
      · have := h2.2
        simp only [Bool.and_eq_true] at this
        exact this.2
      · have := h1.2
        simp only [Bool.not_eq_eq_eq_not, Bool.not_true] at this
        exact this
    · rintro ⟨hmem, hsid, hfilt, hresv, rfl⟩
      refine List.mem_map.mpr ⟨f, ?_, rfl⟩
      refine List.mem_filter.mpr ⟨List.mem_filter.mpr ⟨hmem, ?_⟩, ?_⟩
      · simp [hsid, hfilt]
      · simp [hresv]
  · apply List.Nodup.map
    · intro a b hab
      exact (Prod.mk.injEq .. ▸ hab).1
    · exact List.Nodup.filter _ (List.Nodup.filter _ hnodup)

/-- The candidate set of the test scenario: one valid imported File, one
missing non-imported File, one missing imported File, all in assetstore 1. -/
def scanTestState : StoreState :=
  { files := [⟨1, "hello.txt", 6, 1, true, (1, [104])⟩,
              ⟨2, "fake", 1, 1, false, (1, [99])⟩,
              ⟨3, "fakeImport", 1, 1, true, (1, [98])⟩],
    backend := [(1, [104])] }

/-- Witness for C8 mirroring the test: scanning assetstore 1 with the
`imported` filter yields the missing imported File and ends with
current = total = 2, leaving the state unchanged. -/
theorem c8_find_invalid_files_witness :
    ((⟨3, "fakeImport", 1, 1, true, (1, [98])⟩, "missing") ∈
      (findInvalidFiles scanTestState 1 (fun f => f.imported)).1) ∧
    (findInvalidFiles scanTestState 1 (fun f => f.imported)).2.1.current = 2 ∧
    (findInvalidFiles scanTestState 1 (fun f => f.imported)).2.1.total = 2 ∧
    (findInvalidFiles scanTestState 1 (fun f => f.imported)).2.2 = scanTestState :=
  ⟨((c8_find_invalid_files scanTestState 1 (fun f => f.imported) (by decide)).1
      ⟨3, "fakeImport", 1, 1, true, (1, [98])⟩ "missing").mpr (by decide),
   ((c8_find_invalid_files scanTestState 1 (fun f => f.imported) (by decide)).2.2.1).trans
     (by decide),
   ((c8_find_invalid_files scanTestState 1 (fun f => f.imported) (by decide)).2.2.2.1).trans
     (by decide),
   (c8_find_invalid_files scanTestState 1 (fun f => f.imported) (by decide)).2.2.2.2⟩

/-- Best-effort capacity info: total and free, null when unknown. -/
structure Capacity where
  total : Option Nat
  free : Option Nat
deriving DecidableEq, Repr

/-- The assetstore type tags that have an adapter. -/
def knownStoreTypes : List String := ["filesystem", "gridfs", "s3"]

/-- Modelled from the spec: the adapter lookup fails on an unknown assetstore
type. -/
def getAssetstoreAdapterKind (s : Assetstore) : Except GirderError String :=
  if knownStoreTypes.contains s.storeType then .ok s.storeType
  else .error (.validationError "No AssetstoreAdapter for this assetstore type.")

/-- Modelled from the spec: addComputedInfo attaches capacity info
best-effort — a missing adapter (unknown type) or a failed/impossible
capacity probe sets the capacity fields to null instead of propagating an
error.  `probe` gives the probe outcome per assetstore id, none meaning the
probe failed or the backend cannot report capacity. -/
def addComputedInfo (s : Assetstore) (probe : Nat → Option (Nat × Nat)) :
    Assetstore × Capacity :=
  match getAssetstoreAdapterKind s with
  | .error _ => (s, ⟨none, none⟩)
  | .ok _ =>
      match probe s.id with
      | none => (s, ⟨none, none⟩)
      | some c => (s, ⟨some c.1, some c.2⟩)

/-- Modelled from the spec: listing assetstores attaches computed capacity
info to every configured store. -/
def listAssetstores (stores : List Assetstore) (probe : Nat → Option (Nat × Nat)) :
    List (Assetstore × Capacity) :=
  stores.map (fun s => addComputedInfo s probe)

theorem addComputedInfo_fst (s : Assetstore) (probe : Nat → Option (Nat × Nat)) :
    (addComputedInfo s probe).1 = s := by
  unfold addComputedInfo
  cases getAssetstoreAdapterKind s with
  | error e => rfl
  | ok k =>
      cases probe s.id with
      | none => rfl
      | some c => rfl

/-- C9: listing assetstores never fails because of one unreachable,
misconfigured or unknown-type backend — every configured store appears in
the listing for every probe outcome — and a failed or impossible capacity
probe, or an unknown assetstore type, yields capacity fields null instead of
an error. -/
theorem c9_graceful_listing (stores : List Assetstore)
    (probe : Nat → Option (Nat × Nat)) :
    (listAssetstores stores probe).map Prod.fst = stores ∧
    (∀ s ∈ stores, probe s.id = none →
      (addComputedInfo s probe).2 = ⟨none, none⟩) ∧
    (∀ s ∈ stores, knownStoreTypes.contains s.storeType = false →
      (addComputedInfo s probe).2 = ⟨none, none⟩) := by
  refine ⟨?_, ?_, ?_⟩
  · simp [listAssetstores, List.map_map, Function.comp_def, addComputedInfo_fst]
  · intro s _ hp
    unfold addComputedInfo
    cases h : getAssetstoreAdapterKind s with
    | error e => rfl
    | ok k => rw [hp]
  · intro s _ ht
    unfold addComputedInfo getAssetstoreAdapterKind
    rw [if_neg (by simpa using ht)]

/-- Witness for C9: a filesystem store with a failing probe and an
unknown-type store both list with null capacity, and the listing contains
both stores. -/
theorem c9_graceful_listing_witness :
    (listAssetstores [⟨1, "Test", "filesystem", true⟩, ⟨2, "Sample", "unknown", false⟩]
      (fun _ => none)).map Prod.fst =
      [⟨1, "Test", "filesystem", true⟩, ⟨2, "Sample", "unknown", false⟩] ∧
    (addComputedInfo ⟨1, "Test", "filesystem", true⟩ (fun _ => none)).2 = ⟨none, none⟩ ∧
    (addComputedInfo ⟨2, "Sample", "unknown", false⟩ (fun _ => none)).2 = ⟨none, none⟩ :=
  ⟨(c9_graceful_listing
      [⟨1, "Test", "filesystem", true⟩, ⟨2, "Sample", "unknown", false⟩]
      (fun _ => none)).1,
   (c9_graceful_listing
      [⟨1, "Test", "filesystem", true⟩, ⟨2, "Sample", "unknown", false⟩]
      (fun _ => none)).2.1 ⟨1, "Test", "filesystem", true⟩ (by decide) rfl,
   (c9_graceful_listing
      [⟨1, "Test", "filesystem", true⟩, ⟨2, "Sample", "unknown", false⟩]
      (fun _ => none)).2.2 ⟨2, "Sample", "unknown", false⟩ (by decide) (by decide)⟩

/-- Opaque payload of one celery inspect query, modelled as an association
list from worker name to data. -/
abbrev InspectPayload := List (String × String)

/-- The outcome of `app.control.inspect()` in getWorkerStatus: each query may
return data or nothing. -/
structure InspectStatus where
  report : Option InspectPayload
  stats : Option InspectPayload
  ping : Option InspectPayload
  active : Option InspectPayload
  reserved : Option InspectPayload
deriving DecidableEq, Repr

/-- The mapping getWorkerStatus returns on a reachable broker: its keys are
report, stats, ping, active and reserved, the last two always plain
mappings. -/
structure WorkerStatusResult where
  report : Option InspectPayload
  stats : Option InspectPayload
  ping : Option InspectPayload
  active : InspectPayload
  reserved : InspectPayload
deriving DecidableEq, Repr

/-- `conn.ensure_connection(max_retries=maxRetries)`: the initial connection
attempt plus at most `maxRetries` retries; it succeeds when one of those
attempts succeeds. -/
def ensureConnection (attempts : Nat → Bool) (maxRetries : Nat) : Bool :=
  (List.range (maxRetries + 1)).any attempts

/-- Embedded from plugins/worker/girder_plugin_worker/api/worker.py,
Worker.getWorkerStatus: probe the broker connection with max_retries=1,
return -1 when the connection cannot be established (instead of raising),
and otherwise the status mapping, with `active` and `reserved` defaulted to
empty mappings via `or \x7b\x7d`. -/
def getWorkerStatus (attempts : Nat → Bool) (status : InspectStatus) :
    Int ⊕ WorkerStatusResult :=
  if ensureConnection attempts 1 then
    .inr { report := status.report, stats := status.stats, ping := status.ping,
           active := status.active.getD [], reserved := status.reserved.getD [] }
  else
    .inl (-1)

theorem ensureConnection_one (attempts : Nat → Bool) :
    ensureConnection attempts 1 = (attempts 0 || attempts 1) := by
  show (List.range 2).any attempts = _
  have h2 : List.range 2 = [0, 1] := rfl
  rw [h2]
  simp [List.any]

/-- C10: getWorkerStatus probes the broker with at most one retry (its result
depends only on the first two connection attempts), returns the sentinel -1
instead of raising when the connection cannot be established, and otherwise
returns a mapping with keys report, stats, ping, active and reserved, where
active and reserved are empty mappings — never null — when worker inspection
yields nothing. -/
theorem c10_worker_status (attempts attempts2 : Nat → Bool)
    (status : InspectStatus)
    (h0 : attempts 0 = attempts2 0) (h1 : attempts 1 = attempts2 1) :
    getWorkerStatus attempts status = getWorkerStatus attempts2 status ∧
    (attempts 0 = false → attempts 1 = false →
      getWorkerStatus attempts status = .inl (-1)) ∧
    (∀ res : WorkerStatusResult, getWorkerStatus attempts status = .inr res →
      res.report = status.report ∧ res.stats = status.stats ∧
      res.ping = status.ping ∧
      (status.active = none → res.active = []) ∧
      (status.reserved = none → res.reserved = [])) := by
  refine ⟨?_, ?_, ?_⟩
  · simp [getWorkerStatus, ensureConnection_one, h0, h1]
  · intro ha hb
    simp [getWorkerStatus, ensureConnection_one, ha, hb]
  · intro res hres
    rcases hconn : ensureConnection attempts 1 with _ | _
    · simp only [getWorkerStatus, hconn, Bool.false_eq_true, if_false] at hres
      cases hres
    · simp only [getWorkerStatus, hconn, if_true] at hres
      obtain rfl := (Sum.inr.inj hres).symm
      refine ⟨rfl, rfl, rfl, ?_, ?_⟩
      · intro h; rw [h]; rfl
      · intro h; rw [h]; rfl

/-- Witness for C10: with a broker whose first two connection attempts fail,
the result is -1 even though a third attempt would succeed; with a reachable
broker and empty inspection data, active and reserved come back as empty
mappings. -/
theorem c10_worker_status_witness :
    getWorkerStatus (fun n => n == 2) ⟨none, none, none, none, none⟩ = .inl (-1) ∧
    WorkerStatusResult.active ⟨none, none, none, [], []⟩ = [] ∧
    WorkerStatusResult.reserved ⟨none, none, none, [], []⟩ = [] :=
  ⟨(c10_worker_status (fun n => n == 2) (fun n => n == 2)
      ⟨none, none, none, none, none⟩ rfl rfl).2.1 (by decide) (by decide),
   ((c10_worker_status (fun _ => true) (fun _ => true)
      ⟨none, none, none, none, none⟩ rfl rfl).2.2
      ⟨none, none, none, [], []⟩ rfl).2.2.2.1 rfl,
   ((c10_worker_status (fun _ => true) (fun _ => true)
      ⟨none, none, none, none, none⟩ rfl rfl).2.2
      ⟨none, none, none, [], []⟩ rfl).2.2.2.2 rfl⟩

end Girder
